import Mathlib

/-!
Verification of the reply validation and aggregation engine of the
Labs26-Apollo-BE-TeamC service.

The embedding mirrors two source files:
- src/api/middleware/requests/index.js : validateRequestReplies
- src/api/requests/requestRouter.js : the POST /:id handler and the
  aggregation reduce inside GET /:id/replies

JavaScript values that may be undefined/null are modelled as Option types;
JavaScript truthiness of a string-valued field is modelled by truthyOptStr
(none and the empty string are falsy), and truthiness of a numeric id field
by truthyOptNat (none and 0 are falsy). The persistence store is an external
collaborator, passed in as function arguments.
-/

/-- Truthiness of a JavaScript value that is either a string or
undefined/null: undefined, null and the empty string are falsy. -/
def truthyOptStr : Option String → Bool
  | none => false
  | some s => s ≠ ""

/-- Truthiness of a JavaScript value that is either a number used as an id or
undefined/null: undefined, null and 0 are falsy. -/
def truthyOptNat : Option Nat → Bool
  | none => false
  | some n => n ≠ 0

/-- A Request record as surfaced by getRequestDetailed. An empty or absent
record is signalled by a falsy id field. -/
structure RequestRecord where
  id : Option Nat
  topic_id : Option Nat
  posted_at : String
deriving DecidableEq

/-- One entry of the submitted reply batch, destructured by the middleware
as the pair of the fields question_id and content. A missing field is none. -/
structure ReplyEntry where
  question_id : Option Nat
  content : Option String
deriving DecidableEq

/-- Outcome of the middleware: either it responded with a status code and an
error payload, or it called next(). -/
inductive MwResult where
  | rejected (status : Nat) (error : String)
  | next
deriving DecidableEq

/-- The per-entry loop of validateRequestReplies
(src/api/middleware/requests/index.js, lines 19-31): for each entry, in
order, a falsy question_id rejects first, then a falsy content rejects. -/
def checkEntries : List ReplyEntry → MwResult
  | [] => MwResult.next
  | e :: rest =>
    if !truthyOptNat e.question_id then
      MwResult.rejected 400 "Every reply must include a question id"
    else if !truthyOptStr e.content then
      MwResult.rejected 400 "Every reply must include a content value"
    else checkEntries rest

/-- validateRequestReplies (src/api/middleware/requests/index.js): resolve the
request through the store, reject 404 on a falsy id, reject 400 on an absent
replies field, then run the per-entry loop. The store function
getRequestDetailed is an external collaborator passed as an argument. -/
def validateRequestReplies (getRequestDetailed : String → RequestRecord)
    (id : String) (replies : Option (List ReplyEntry)) : MwResult :=
  let request := getRequestDetailed id
  if !truthyOptNat request.id then
    MwResult.rejected 404 "Could not find a request with that id"
  else
    match replies with
    | none => MwResult.rejected 400 "Must include replies"
    | some rs => checkEntries rs

/-- Response emitted by the POST /:id route: the raw store payload on
success, a json body with an error field from the middleware, or a json body
with a message field on store failure. -/
inductive PostResponse (ρ : Type) where
  | payload (status : Nat) (requestInfo : ρ)
  | errorJson (status : Nat) (error : String)
  | messageJson (status : Nat) (message : String)
deriving DecidableEq

/-- The POST /:id route (src/api/requests/requestRouter.js, lines 82-94):
the validator middleware runs first; on next() the handler calls
addRequestReplies and sends its result through unchanged when truthy, or a
generic 500 message when falsy. The store write is an external collaborator
returning none on failure. -/
def postRequestReplies {ρ : Type} (getRequestDetailed : String → RequestRecord)
    (addRequestReplies : String → String → Option (List ReplyEntry) → Option ρ)
    (id profileId : String) (replies : Option (List ReplyEntry)) : PostResponse ρ :=
  match validateRequestReplies getRequestDetailed id replies with
  | MwResult.rejected s e => PostResponse.errorJson s e
  | MwResult.next =>
    match addRequestReplies id profileId replies with
    | some requestInfo => PostResponse.payload 200 requestInfo
    | none => PostResponse.messageJson 500 "We are sorry, Internal server error."

/-- A flat reply record as returned by getRequestReplies: the reply fields
plus the denormalized member display fields name and avatarUrl. -/
structure FlatReply where
  id : Nat
  posted_at : String
  iteration_id : Nat
  question_id : Nat
  profile_id : String
  question : String
  content : String
  name : Option String
  avatarUrl : Option String
deriving DecidableEq

/-- The per-reply object rebuilt by the aggregator map callback
(src/api/requests/requestRouter.js, lines 320-327): only the six
non-identity fields. -/
structure StrippedReply where
  id : Nat
  posted_at : String
  iteration_id : Nat
  question_id : Nat
  question : String
  content : String
deriving DecidableEq

/-- One element of the aggregated output list. -/
structure MemberReplyGroup where
  profile_id : String
  name : Option String
  avatarUrl : Option String
  replies : List StrippedReply
deriving DecidableEq

/-- The object literal returned by the map callback: the reply without its
identity fields. -/
def stripReply (reply : FlatReply) : StrippedReply :=
  { id := reply.id, posted_at := reply.posted_at,
    iteration_id := reply.iteration_id, question_id := reply.question_id,
    question := reply.question, content := reply.content }

/-- The map over the filtered replies (src/api/requests/requestRouter.js,
lines 305-329) together with its side effects on the two mutable locals:
for each reply in order, a falsy username is overwritten by the name of the
reply and a falsy userAvatarUrl by its avatarUrl, and the stripped reply is
collected. Returns the final username, the final userAvatarUrl and the
mapped list. -/
def mapWithIdent : Option String → Option String → List FlatReply →
    Option String × Option String × List StrippedReply
  | username, userAvatarUrl, [] => (username, userAvatarUrl, [])
  | username, userAvatarUrl, reply :: rest =>
    let u := if truthyOptStr username then username else reply.name
    let a := if truthyOptStr userAvatarUrl then userAvatarUrl else reply.avatarUrl
    let res := mapWithIdent u a rest
    (res.1, res.2.1, stripReply reply :: res.2.2)

/-- The body of the reduce callback for one member id: filter the flat
replies to those whose profile_id strictly equals the id, run the map with
its identity side effects, and build the group object that is pushed. -/
def groupFor (replies : List FlatReply) (curr : String) : MemberReplyGroup :=
  let res := mapWithIdent none none
    (replies.filter (fun reply => reply.profile_id == curr))
  { profile_id := curr, name := res.1, avatarUrl := res.2.1, replies := res.2.2 }

/-- The aggregation reduce of GET /:id/replies
(src/api/requests/requestRouter.js, lines 301-339): fold over whoHasReplied
with an initially empty accumulator, pushing one group per member id. -/
def aggregate (replies : List FlatReply) (whoHasReplied : List String) :
    List MemberReplyGroup :=
  whoHasReplied.foldl (fun acc curr => acc ++ [groupFor replies curr]) []

/-! Concrete records used by witnesses and by the counterexample. -/

/-- Demo reply of member A, with truthy identity fields. -/
def replyA : FlatReply :=
  { id := 1, posted_at := "2020-09-28T00:37:22.901Z", iteration_id := 1,
    question_id := 1, profile_id := "A", question := "q1", content := "x",
    name := some "Alice", avatarUrl := some "ua" }

/-- Demo reply of member B, with truthy identity fields. -/
def replyB : FlatReply :=
  { id := 2, posted_at := "2020-09-28T00:37:22.901Z", iteration_id := 1,
    question_id := 1, profile_id := "B", question := "q1", content := "y",
    name := some "Bob", avatarUrl := some "ub" }

/-- Demo flat reply list. -/
def demoReplies : List FlatReply := [replyA, replyB]

/-- First reply of the counterexample input: its name is the empty string,
which is falsy in JavaScript. -/
def cexFirst : FlatReply :=
  { id := 1, posted_at := "t1", iteration_id := 1, question_id := 1,
    profile_id := "A", question := "q1", content := "x",
    name := some "", avatarUrl := some "u1" }

/-- Second reply of the counterexample input, with a truthy name. -/
def cexSecond : FlatReply :=
  { id := 2, posted_at := "t2", iteration_id := 1, question_id := 2,
    profile_id := "A", question := "q2", content := "y",
    name := some "Bob", avatarUrl := some "u2" }

/-- A store with a request whose id is truthy. -/
def demoStore : String → RequestRecord :=
  fun _ => { id := some 1, topic_id := some 1, posted_at := "t0" }

/-- A store whose detailed-request lookup comes back with a falsy id. -/
def emptyStore : String → RequestRecord :=
  fun _ => { id := none, topic_id := none, posted_at := "" }

/-- A well-formed batch entry. -/
def okEntry : ReplyEntry := { question_id := some 1, content := some "a" }

/-- A batch entry with a truthy question_id and a missing content. -/
def noContentEntry : ReplyEntry := { question_id := some 2, content := none }

/-- A batch entry missing both fields. -/
def badBothEntry : ReplyEntry := { question_id := none, content := none }

/-! Helper lemmas about the validator. -/

/-- A prefix of well-formed entries does not change the outcome of the
per-entry loop on the remainder of the batch. -/
theorem checkEntries_append (pre l : List ReplyEntry)
    (hpre : ∀ e ∈ pre, truthyOptNat e.question_id = true ∧
      truthyOptStr e.content = true) :
    checkEntries (pre ++ l) = checkEntries l := by
  induction pre with
  | nil => rfl
  | cons e rest ih =>
    have he := hpre e (List.mem_cons_self e rest)
    have hrest : ∀ x ∈ rest, truthyOptNat x.question_id = true ∧
        truthyOptStr x.content = true :=
      fun x hx => hpre x (List.mem_cons_of_mem e hx)
    simp [checkEntries, he.1, he.2, ih hrest]

/-- Claim C4: whenever the store resolves the request id to a record with a
falsy id field, validateRequestReplies responds 404 with the not-found
message, regardless of the replies field of the body; the existence check
runs before any batch check. -/
theorem C4_request_not_found (getRequestDetailed : String → RequestRecord)
    (id : String) (h : truthyOptNat (getRequestDetailed id).id = false)
    (replies : Option (List ReplyEntry)) :
    validateRequestReplies getRequestDetailed id replies =
      MwResult.rejected 404 "Could not find a request with that id" := by
  simp [validateRequestReplies, h]

/-- Witness for C4 at a concrete store, id and batch. -/
theorem C4_witness :
    validateRequestReplies emptyStore "9" (some [okEntry]) =
      MwResult.rejected 404 "Could not find a request with that id" :=
  C4_request_not_found emptyStore "9" (by decide) (some [okEntry])

/-- Claim C5: when the request exists, an absent replies field is rejected
400 with the missing-replies message; no per-entry check runs since there
are no entries. -/
theorem C5_missing_replies (getRequestDetailed : String → RequestRecord)
    (id : String) (h : truthyOptNat (getRequestDetailed id).id = true) :
    validateRequestReplies getRequestDetailed id none =
      MwResult.rejected 400 "Must include replies" := by
  simp [validateRequestReplies, h]

/-- Witness for C5 at a concrete store and id. -/
theorem C5_witness :
    validateRequestReplies demoStore "1" none =
      MwResult.rejected 400 "Must include replies" :=
  C5_missing_replies demoStore "1" (by decide)

/-- Claim C3: when the request exists and the batch splits as a list of
well-formed entries followed by the first offending entry, validation
rejects 400 with the message naming the missing field, question_id checked
before content, and the outcome does not depend on the entries after the
offending one. -/
theorem C3_first_bad_entry (getRequestDetailed : String → RequestRecord)
    (id : String) (h : truthyOptNat (getRequestDetailed id).id = true)
    (pre : List ReplyEntry)
    (hpre : ∀ e ∈ pre, truthyOptNat e.question_id = true ∧
      truthyOptStr e.content = true)
    (e : ReplyEntry)
    (he : truthyOptNat e.question_id = false ∨ truthyOptStr e.content = false)
    (rest : List ReplyEntry) :
    validateRequestReplies getRequestDetailed id (some (pre ++ e :: rest)) =
      MwResult.rejected 400
        (if truthyOptNat e.question_id = false then
          "Every reply must include a question id"
        else "Every reply must include a content value") := by
  have hloop := checkEntries_append pre (e :: rest) hpre
  rcases he with hq | hc
  · simp [validateRequestReplies, h, hloop, checkEntries, hq]
  · rcases hqv : truthyOptNat e.question_id with _ | _
    · simp [validateRequestReplies, h, hloop, checkEntries, hqv]
    · simp [validateRequestReplies, h, hloop, checkEntries, hqv, hc]

/-- Witness for C3: the fourth entry is never inspected; the third entry,
the first offending one, lacks content, so the content message is chosen. -/
theorem C3_witness :
    validateRequestReplies demoStore "1"
        (some ([okEntry, okEntry] ++ noContentEntry :: [badBothEntry])) =
      MwResult.rejected 400 "Every reply must include a content value" := by
  have h := C3_first_bad_entry demoStore "1" (by decide) [okEntry, okEntry]
    (by decide) noContentEntry (Or.inr (by decide)) [badBothEntry]
  rw [h]
  decide

/-- Claim C7: when the request exists, any batch all of whose entries carry
a truthy question_id and a truthy content passes the gate; nothing requires
the question ids to be distinct or to belong to the question set of the
request. -/
theorem C7_all_good_accepted (getRequestDetailed : String → RequestRecord)
    (id : String) (h : truthyOptNat (getRequestDetailed id).id = true)
    (rs : List ReplyEntry)
    (hall : ∀ e ∈ rs, truthyOptNat e.question_id = true ∧
      truthyOptStr e.content = true) :
    validateRequestReplies getRequestDetailed id (some rs) = MwResult.next := by
  have hloop : checkEntries rs = MwResult.next := by
    have := checkEntries_append rs [] hall
    simpa using this
  simp [validateRequestReplies, h, hloop]

/-- Witness for C7 on a batch with a duplicated question_id. -/
theorem C7_witness :
    validateRequestReplies demoStore "1"
        (some [{ question_id := some 1, content := some "a" },
               { question_id := some 1, content := some "b" }]) =
      MwResult.next :=
  C7_all_good_accepted demoStore "1" (by decide)
    [{ question_id := some 1, content := some "a" },
     { question_id := some 1, content := some "b" }] (by decide)

/-- Claim C10: when the request exists, an empty batch passes the gate: the
per-entry loop is vacuous, and the empty array is truthy in JavaScript so it
is not confused with an absent replies field. -/
theorem C10_empty_batch_accepted (getRequestDetailed : String → RequestRecord)
    (id : String) (h : truthyOptNat (getRequestDetailed id).id = true) :
    validateRequestReplies getRequestDetailed id (some []) = MwResult.next := by
  simp [validateRequestReplies, h, checkEntries]

/-- Witness for C10 at a concrete store and id. -/
theorem C10_witness :
    validateRequestReplies demoStore "1" (some []) = MwResult.next :=
  C10_empty_batch_accepted demoStore "1" (by decide)

/-! Helper lemmas about the aggregator. -/

/-- The push-into-accumulator fold is an append of the mapped list. -/
theorem foldl_push_groups (replies : List FlatReply) (who : List String)
    (init : List MemberReplyGroup) :
    who.foldl (fun acc curr => acc ++ [groupFor replies curr]) init =
      init ++ who.map (groupFor replies) := by
  induction who generalizing init with
  | nil => simp
  | cons c cs ih => simp [List.foldl_cons, ih]

/-- The reduce emits exactly one group per member id, by groupFor. -/
theorem aggregate_eq_map (replies : List FlatReply) (who : List String) :
    aggregate replies who = who.map (groupFor replies) := by
  unfold aggregate
  simpa using foldl_push_groups replies who []

/-- The profile_id field of a group is the member id it was built for. -/
theorem groupFor_profile_id (replies : List FlatReply) (curr : String) :
    (groupFor replies curr).profile_id = curr := rfl

/-- The name field of a group is the first component of the map with
identity side effects over the filtered replies. -/
theorem groupFor_name (replies : List FlatReply) (curr : String) :
    (groupFor replies curr).name =
      (mapWithIdent none none
        (replies.filter (fun reply => reply.profile_id == curr))).1 := rfl

/-- The avatarUrl field of a group is the second component of the map with
identity side effects over the filtered replies. -/
theorem groupFor_avatarUrl (replies : List FlatReply) (curr : String) :
    (groupFor replies curr).avatarUrl =
      (mapWithIdent none none
        (replies.filter (fun reply => reply.profile_id == curr))).2.1 := rfl

/-- The replies field of a group is the third component of the map with
identity side effects over the filtered replies. -/
theorem groupFor_replies (replies : List FlatReply) (curr : String) :
    (groupFor replies curr).replies =
      (mapWithIdent none none
        (replies.filter (fun reply => reply.profile_id == curr))).2.2 := rfl

/-- The mapped component of mapWithIdent is the plain map of stripReply. -/
theorem mapWithIdent_strips (rs : List FlatReply) :
    ∀ u a, (mapWithIdent u a rs).2.2 = rs.map stripReply := by
  induction rs with
  | nil => intro u a; rfl
  | cons r rest ih => intro u a; simp [mapWithIdent, ih]

/-- A truthy username is never overwritten by the map side effects. -/
theorem mapWithIdent_keeps_truthy_name (rs : List FlatReply) :
    ∀ u a, truthyOptStr u = true → (mapWithIdent u a rs).1 = u := by
  induction rs with
  | nil => intro u a _; rfl
  | cons r rest ih =>
    intro u a hu
    simp only [mapWithIdent, hu, if_true]
    exact ih u _ hu

/-- A truthy userAvatarUrl is never overwritten by the map side effects. -/
theorem mapWithIdent_keeps_truthy_avatar (rs : List FlatReply) :
    ∀ u a, truthyOptStr a = true → (mapWithIdent u a rs).2.1 = a := by
  induction rs with
  | nil => intro u a _; rfl
  | cons r rest ih =>
    intro u a ha
    simp only [mapWithIdent, ha, if_true]
    exact ih _ a ha

/-- Claim C2: the aggregator emits one group per id in whoHasReplied in that
exact order; each group carries precisely the matching input replies,
stripped, in their input order; a member with no matching reply gets an
empty replies array with name and avatarUrl unset; and empty inputs give an
empty output. -/
theorem C2_one_group_per_member (replies : List FlatReply) (who : List String) :
    aggregate [] [] = [] ∧
    (aggregate replies who).map (fun g => g.profile_id) = who ∧
    ∀ g ∈ aggregate replies who,
      g.replies = (replies.filter
        (fun r => r.profile_id == g.profile_id)).map stripReply ∧
      (replies.filter (fun r => r.profile_id == g.profile_id) = [] →
        g.replies = [] ∧ g.name = none ∧ g.avatarUrl = none) := by
  refine ⟨rfl, ?_, ?_⟩
  · rw [aggregate_eq_map, List.map_map]
    have h : ((fun g : MemberReplyGroup => g.profile_id) ∘ groupFor replies) =
        fun c => c := by
      funext c; rfl
    rw [h]
    exact List.map_id who
  · intro g hg
    rw [aggregate_eq_map] at hg
    obtain ⟨c, _, rfl⟩ := List.mem_map.mp hg
    rw [groupFor_profile_id]
    constructor
    · rw [groupFor_replies, mapWithIdent_strips]
    · intro hempty
      rw [groupFor_replies, groupFor_name, groupFor_avatarUrl, hempty]
      exact ⟨rfl, rfl, rfl⟩

/-- Witness for C2 on the demo data from the spec example: member B first. -/
theorem C2_witness :
    groupFor demoReplies "B" ∈ aggregate demoReplies ["B", "A"] ∧
    (groupFor demoReplies "B").replies = (demoReplies.filter
      (fun r => r.profile_id == (groupFor demoReplies "B").profile_id)).map
        stripReply := by
  have hmem : groupFor demoReplies "B" ∈ aggregate demoReplies ["B", "A"] := by
    decide
  have h := (C2_one_group_per_member demoReplies ["B", "A"]).2.2
    (groupFor demoReplies "B") hmem
  exact ⟨hmem, h.1⟩

/-- Claim C6: every reply inside a group consists of exactly the six
non-identity fields of some matching input reply; profile_id, name and
avatarUrl never appear inside a replies entry, identity living only at the
top of the group. -/
theorem C6_identity_stripped (replies : List FlatReply) (who : List String) :
    ∀ g ∈ aggregate replies who, ∀ sr ∈ g.replies,
      ∃ r ∈ replies, r.profile_id = g.profile_id ∧
        sr = { id := r.id, posted_at := r.posted_at,
               iteration_id := r.iteration_id, question_id := r.question_id,
               question := r.question, content := r.content } := by
  intro g hg sr hsr
  rw [aggregate_eq_map] at hg
  obtain ⟨c, _, rfl⟩ := List.mem_map.mp hg
  rw [groupFor_replies, mapWithIdent_strips] at hsr
  obtain ⟨r, hrmem, rfl⟩ := List.mem_map.mp hsr
  have hfil := List.mem_filter.mp hrmem
  exact ⟨r, hfil.1, eq_of_beq hfil.2, rfl⟩

/-- Witness for C6 on the demo data: the single reply of member A. -/
theorem C6_witness :
    ∃ r ∈ demoReplies, r.profile_id = (groupFor demoReplies "A").profile_id ∧
      stripReply replyA = { id := r.id, posted_at := r.posted_at,
                            iteration_id := r.iteration_id,
                            question_id := r.question_id,
                            question := r.question, content := r.content } :=
  C6_identity_stripped demoReplies ["B", "A"] (groupFor demoReplies "A")
    (by decide) (stripReply replyA) (by decide)

/-- Claim C9: every emitted group belongs to a member of whoHasReplied, and
every emitted reply is the stripped form of an input reply of that member;
replies of members outside whoHasReplied are silently dropped. -/
theorem C9_only_members_emitted (replies : List FlatReply) (who : List String) :
    ∀ g ∈ aggregate replies who, g.profile_id ∈ who ∧
      ∀ sr ∈ g.replies, ∃ r ∈ replies,
        r.profile_id = g.profile_id ∧ sr = stripReply r := by
  intro g hg
  rw [aggregate_eq_map] at hg
  obtain ⟨c, hc, rfl⟩ := List.mem_map.mp hg
  refine ⟨hc, ?_⟩
  intro sr hsr
  rw [groupFor_replies, mapWithIdent_strips] at hsr
  obtain ⟨r, hrmem, rfl⟩ := List.mem_map.mp hsr
  have hfil := List.mem_filter.mp hrmem
  exact ⟨r, hfil.1, eq_of_beq hfil.2, rfl⟩

/-- Witness for C9: the profile_id of the first demo group is in the member
list. -/
theorem C9_witness : (groupFor demoReplies "B").profile_id ∈ ["B", "A"] :=
  (C9_only_members_emitted demoReplies ["B", "A"] (groupFor demoReplies "B")
    (by decide)).1

/-- Counterexample to claim C1 as stated: member A has replies, the first
matching reply is cexFirst, yet the emitted group takes its name from the
second reply, because the name of the first reply is the empty string, which
is falsy, and the code re-checks truthiness at every reply. -/
theorem C1_counterexample :
    groupFor [cexFirst, cexSecond] "A" ∈ aggregate [cexFirst, cexSecond] ["A"] ∧
    ([cexFirst, cexSecond].filter
      (fun r => r.profile_id == (groupFor [cexFirst, cexSecond] "A").profile_id)
      ).head? = some cexFirst ∧
    (groupFor [cexFirst, cexSecond] "A").name ≠ cexFirst.name := by
  decide

/-- Claim C1, amended: when the first matching reply of a member carries a
truthy name and a truthy avatarUrl, the emitted group takes both from that
first reply and the identity fields of all later matching replies are
discarded; with falsy identity fields on the first matching reply, a later
reply can supply them. -/
theorem C1_first_reply_identity (replies : List FlatReply) (who : List String)
    (g : MemberReplyGroup) (hg : g ∈ aggregate replies who) (r : FlatReply)
    (hr : (replies.filter (fun x => x.profile_id == g.profile_id)).head? =
      some r)
    (hn : truthyOptStr r.name = true) (ha : truthyOptStr r.avatarUrl = true) :
    g.name = r.name ∧ g.avatarUrl = r.avatarUrl := by
  rw [aggregate_eq_map] at hg
  obtain ⟨c, _, rfl⟩ := List.mem_map.mp hg
  rw [groupFor_profile_id] at hr
  obtain ⟨tail, hft⟩ : ∃ tail,
      replies.filter (fun x => x.profile_id == c) = r :: tail := by
    rcases hfl : replies.filter (fun x => x.profile_id == c) with _ | ⟨x, xs⟩
    · rw [hfl] at hr; simp at hr
    · rw [hfl] at hr
      simp only [List.head?_cons, Option.some.injEq] at hr
      exact ⟨xs, hr ▸ hfl⟩
  constructor
  · rw [groupFor_name, hft]
    simp only [mapWithIdent, truthyOptStr, Bool.false_eq_true, if_false]
    exact mapWithIdent_keeps_truthy_name tail r.name _ hn
  · rw [groupFor_avatarUrl, hft]
    simp only [mapWithIdent, truthyOptStr, Bool.false_eq_true, if_false]
    exact mapWithIdent_keeps_truthy_avatar tail _ r.avatarUrl ha

/-- Witness for the amended C1 on the demo data: the group of member A takes
name and avatarUrl from its first matching reply. -/
theorem C1_witness :
    (groupFor demoReplies "A").name = replyA.name ∧
    (groupFor demoReplies "A").avatarUrl = replyA.avatarUrl :=
  C1_first_reply_identity demoReplies ["B", "A"] (groupFor demoReplies "A")
    (by decide) replyA (by decide) (by decide) (by decide)

/-- Claim C8: once the validator has accepted the batch, the route response
is the addRequestReplies result passed through unchanged with status 200
when that result is truthy, and the generic 500 message when it is falsy;
the store payload is never reshaped. -/
theorem C8_write_passthrough {ρ : Type}
    (getRequestDetailed : String → RequestRecord)
    (addRequestReplies : String → String → Option (List ReplyEntry) → Option ρ)
    (id profileId : String) (replies : Option (List ReplyEntry))
    (hacc : validateRequestReplies getRequestDetailed id replies =
      MwResult.next) :
    (∀ requestInfo : ρ, addRequestReplies id profileId replies =
        some requestInfo →
      postRequestReplies getRequestDetailed addRequestReplies id profileId
        replies = PostResponse.payload 200 requestInfo) ∧
    (addRequestReplies id profileId replies = none →
      postRequestReplies getRequestDetailed addRequestReplies id profileId
        replies =
          PostResponse.messageJson 500 "We are sorry, Internal server error.") := by
  constructor
  · intro requestInfo hinfo
    simp [postRequestReplies, hacc, hinfo]
  · intro hnone
    simp [postRequestReplies, hacc, hnone]

/-- Witness for C8: a concrete accepted batch whose store write returns the
number 42, passed through with status 200. -/
theorem C8_witness :
    postRequestReplies demoStore (fun _ _ _ => some (42 : Nat)) "1" "p"
      (some [okEntry]) = PostResponse.payload 200 42 :=
  (C8_write_passthrough demoStore (fun _ _ _ => some (42 : Nat)) "1" "p"
    (some [okEntry]) (by decide)).1 42 rfl
